import Mathlib

/-!
Shallow embedding of the classification-and-scoring core of the MedBot
repository (`src/app.py`, `src/medical_utils.py`): the triage classifier,
the vital-sign interpreter, and the risk/metric calculators, together with
theorems settling the frozen claims about them.

Strings are modelled by Lean `String` (a list of characters), Python
numbers by `ℚ`, and Python's `str.lower` by an ASCII lower-casing map
(all keywords and table entries are ASCII).  Python's fallible division is
modelled with `Except`.
-/

namespace MedBot

/-! ### Character and substring utilities -/

/-- ASCII lower-casing of one character, as `str.lower` acts on the ASCII
keywords and table entries used by the source. -/
def asciiLower (c : Char) : Char :=
  if 'A' ≤ c ∧ c ≤ 'Z' then Char.ofNat (c.toNat + 32) else c

/-- ASCII upper-casing of one character (used by `temp_unit.upper()`). -/
def asciiUpper (c : Char) : Char :=
  if 'a' ≤ c ∧ c ≤ 'z' then Char.ofNat (c.toNat - 32) else c

/-- `str.lower` on a whole string. -/
def lowerStr (s : String) : String := ⟨s.data.map asciiLower⟩

/-- `str.upper` on a whole string. -/
def upperStr (s : String) : String := ⟨s.data.map asciiUpper⟩

/-- Python's substring test `n in h` on character lists. -/
def occursIn (n : List Char) : List Char → Bool
  | [] => n.isEmpty
  | c :: cs => n.isPrefixOf (c :: cs) || occursIn n cs

/-- The apostrophe character (code point 39). -/
def apoC : Char := Char.ofNat 39

/-- The word appearing in the keywords and regex pattern number four of the
source, spelled with an apostrophe between the n and the t. -/
def cantStr : String := "can" ++ ⟨[apoC]⟩ ++ "t"

/-! ### Lexicon (`MedicalUtils.__init__`, `MedicalChatbot.is_emergency`) -/

/-- `MedicalUtils.emergency_keywords` (18 entries, `medical_utils.py`). -/
def emergency_keywords : List String :=
  ["chest pain", cantStr ++ " breathe", "difficulty breathing", "severe bleeding",
   "stroke", "heart attack", "suicide", "kill myself", "overdose",
   "severe headache", "unconscious", "seizure", "choking", "allergic reaction",
   "severe abdominal pain", "high fever", "severe burn", "broken bone"]

/-- `MedicalUtils.urgent_keywords`. -/
def urgent_keywords : List String :=
  ["high fever", "severe pain", "vomiting blood", "difficulty swallowing",
   "sudden dizziness", "severe allergic reaction", "persistent vomiting",
   "severe dehydration", "rapid heart rate", "confusion"]

/-- The local `emergency_keywords` list of `MedicalChatbot.is_emergency`
in `app.py` (13 entries). -/
def app_emergency_keywords : List String :=
  ["chest pain", cantStr ++ " breathe", "difficulty breathing", "severe bleeding",
   "stroke", "heart attack", "suicide", "kill myself", "overdose",
   "severe headache", "unconscious", "seizure", "choking"]

/-! ### Concerning regex patterns (`MedicalUtils._check_concerning_patterns`)

Each source pattern has the shape `lit₀.*lit₁.*(alt | … | alt)` where the
alternatives are literals or `\d+`.  `re.search` is modelled on character
lists: the leading context before the first literal is arbitrary, every
`.*` gap may contain any characters except a newline, and `\d+` matches at
a position exactly when a digit stands there. -/

/-- One token of a pattern: a literal word, or `\d+`. -/
inductive Tok where
  | lit : List Char → Tok
  | digit : Tok

/-- Match one token at the start of the input; return the rest on success. -/
def consumeTok : Tok → List Char → Option (List Char)
  | Tok.lit l, cs => if l.isPrefixOf cs then some (cs.drop l.length) else none
  | Tok.digit, [] => none
  | Tok.digit, c :: cs => if c.isDigit then some cs else none

/-- Match a token here, then continue with `p` on the rest. -/
def tokThen (t : Tok) (p : List Char → Bool) (cs : List Char) : Bool :=
  match consumeTok t cs with
  | some rest => p rest
  | none => false

/-- A `.*` gap: skip any characters except a newline, then match `p`. -/
def gapSearch (p : List Char → Bool) : List Char → Bool
  | [] => p []
  | c :: cs => p (c :: cs) || (c != '\n' && gapSearch p cs)

/-- `re.search` leading context: try `p` at every suffix. -/
def searchFrom (p : List Char → Bool) : List Char → Bool
  | [] => p []
  | c :: cs => p (c :: cs) || searchFrom p cs

/-- An alternation group ending a pattern: one of the tokens matches here. -/
def altsAt (alts : List Tok) (cs : List Char) : Bool :=
  alts.any fun t => (consumeTok t cs).isSome

/-- Literal token from a string. -/
def litTok (s : String) : Tok := Tok.lit s.data

/-- Source pattern `pain.*(\d+|ten|severe|unbearable)`. -/
def pat_pain (m : List Char) : Bool :=
  searchFrom (tokThen (litTok "pain")
    (gapSearch (altsAt [Tok.digit, litTok "ten", litTok "severe", litTok "unbearable"]))) m

/-- Source pattern `bleeding.*(\d+|hours|days)`. -/
def pat_bleeding (m : List Char) : Bool :=
  searchFrom (tokThen (litTok "bleeding")
    (gapSearch (altsAt [Tok.digit, litTok "hours", litTok "days"]))) m

/-- Source pattern `fever.*(\d+|high|very)`. -/
def pat_fever (m : List Char) : Bool :=
  searchFrom (tokThen (litTok "fever")
    (gapSearch (altsAt [Tok.digit, litTok "high", litTok "very"]))) m

/-- Source pattern number four: the sleeplessness word, then `.*sleep.*`,
then `(\d+|days|weeks)`. -/
def pat_sleep (m : List Char) : Bool :=
  searchFrom (tokThen (litTok cantStr)
    (gapSearch (tokThen (litTok "sleep")
      (gapSearch (altsAt [Tok.digit, litTok "days", litTok "weeks"]))))) m

/-- Source pattern `lost.*weight.*(\d+|pounds|kg)`. -/
def pat_weight (m : List Char) : Bool :=
  searchFrom (tokThen (litTok "lost")
    (gapSearch (tokThen (litTok "weight")
      (gapSearch (altsAt [Tok.digit, litTok "pounds", litTok "kg"]))))) m

/-- `MedicalUtils._check_concerning_patterns`: any of the five patterns
matches the (already lower-cased) message. -/
def check_concerning_patterns (m : String) : Bool :=
  pat_pain m.data || pat_bleeding m.data || pat_fever m.data ||
    pat_sleep m.data || pat_weight m.data

/-! ### Triage classifier -/

/-- `MedicalUtils.assess_urgency`: lower-case, then emergency keywords,
then urgent keywords, then concerning patterns, else LOW. -/
def assess_urgency (message : String) : String × String :=
  let m := lowerStr message
  if emergency_keywords.any (fun kw => occursIn kw.data m.data) then
    ("EMERGENCY", "This appears to be a medical emergency. Seek immediate medical attention.")
  else if urgent_keywords.any (fun kw => occursIn kw.data m.data) then
    ("URGENT", "This may require prompt medical attention. Consider contacting a healthcare provider.")
  else if check_concerning_patterns m then
    ("MODERATE", "This should be evaluated by a healthcare provider if symptoms persist.")
  else
    ("LOW", "This appears to be a general health inquiry.")

/-- `MedicalChatbot.is_emergency` from `app.py`, with its own keyword list. -/
def is_emergency (message : String) : Bool :=
  app_emergency_keywords.any fun kw => occursIn kw.data (lowerStr message).data

/-! ### BMI calculator (`MedicalUtils.calculate_bmi`) -/

/-- Python's `round` to an integer: round half to even. -/
def roundHalfEven (q : ℚ) : ℤ :=
  let f := ⌊q⌋
  let r := q - f
  if r < 1/2 then f
  else if 1/2 < r then f + 1
  else if f % 2 = 0 then f else f + 1

/-- Python's `round(x, 1)`. -/
def round1 (x : ℚ) : ℚ := (roundHalfEven (10 * x) : ℚ) / 10

/-- Result record of `calculate_bmi`. -/
structure BmiResult where
  bmi : ℚ
  category : String
  advice : String
deriving DecidableEq

instance {α β : Type} [DecidableEq α] [DecidableEq β] : DecidableEq (Except α β) := fun x y =>
  match x, y with
  | Except.error a, Except.error b =>
    if h : a = b then isTrue (by rw [h]) else isFalse (fun he => by cases he; exact h rfl)
  | Except.error _, Except.ok _ => isFalse (fun he => Except.noConfusion he)
  | Except.ok _, Except.error _ => isFalse (fun he => Except.noConfusion he)
  | Except.ok a, Except.ok b =>
    if h : a = b then isTrue (by rw [h]) else isFalse (fun he => by cases he; exact h rfl)

/-- `MedicalUtils.calculate_bmi`.  The division `weight_kg / height_m ** 2`
raises `ZeroDivisionError` exactly when the divisor is zero, modelled with
`Except`; otherwise the unrounded BMI is banded and the rounded BMI
returned. -/
def calculate_bmi (weight_kg height_m : ℚ) : Except String BmiResult :=
  if height_m ^ 2 = 0 then Except.error "ZeroDivisionError: float division by zero"
  else
    let bmi := weight_kg / height_m ^ 2
    if bmi < 37/2 then
      Except.ok ⟨round1 bmi, "Underweight",
        "Consider consulting with a healthcare provider about healthy weight gain."⟩
    else if 37/2 ≤ bmi ∧ bmi < 25 then
      Except.ok ⟨round1 bmi, "Normal weight", "Maintain your current healthy lifestyle."⟩
    else if 25 ≤ bmi ∧ bmi < 30 then
      Except.ok ⟨round1 bmi, "Overweight",
        "Consider lifestyle changes including diet and exercise. Consult a healthcare provider."⟩
    else
      Except.ok ⟨round1 bmi, "Obese",
        "Strongly recommend consulting with a healthcare provider for a comprehensive health plan."⟩

/-! ### Medication interaction checker
(`MedicalUtils.medication_interaction_check`) -/

/-- The `known_interactions` dict, keys written exactly as in the source. -/
def known_interactions : List ((String × String) × String) :=
  [(("warfarin", "aspirin"), "Increased bleeding risk"),
   (("warfarin", "ibuprofen"), "Increased bleeding risk"),
   (("metformin", "alcohol"), "Risk of lactic acidosis"),
   (("statins", "grapefruit"), "Increased statin levels")]

/-- Dict lookup `known_interactions[key]` as an option. -/
def lookupInteraction (key : String × String) : Option String :=
  (known_interactions.find? fun e => e.1 == key).map (fun e => e.2)

/-- Python's `<` on strings: lexicographic comparison by code point, a
proper prefix sorting first. -/
def listLtChar : List Char → List Char → Bool
  | [], [] => false
  | [], _ :: _ => true
  | _ :: _, [] => false
  | a :: as, b :: bs => if a < b then true else if b < a then false else listLtChar as bs

/-- `tuple(sorted([med1, med2]))`: swap the two names exactly when the
second sorts before the first. -/
def sortPair (a b : String) : String × String :=
  if listLtChar b.data a.data then (b, a) else (a, b)

/-- All index pairs `i < j` of the list, in the source's loop order. -/
def allPairs : List String → List (String × String)
  | [] => []
  | x :: xs => (xs.map fun y => (x, y)) ++ allPairs xs

/-- One entry of the `interactions` list: the two (lower-cased) names in
input order, and the interaction description. -/
structure InteractionFinding where
  med1 : String
  med2 : String
  interaction : String
deriving DecidableEq

/-- The record returned by `medication_interaction_check`. -/
structure InteractionReport where
  has_interactions : Bool
  interactions : List InteractionFinding
  disclaimer : String
deriving DecidableEq

/-- `MedicalUtils.medication_interaction_check`. -/
def medication_interaction_check (medications : List String) : InteractionReport :=
  let meds := medications.map lowerStr
  let interactions := (allPairs meds).filterMap fun p =>
    (lookupInteraction (sortPair p.1 p.2)).map fun d => ⟨p.1, p.2, d⟩
  { has_interactions := decide (0 < interactions.length)
    interactions := interactions
    disclaimer := "This is a basic check. Always consult your pharmacist or doctor for comprehensive interaction screening." }

/-! ### Vital-sign interpreter (`MedicalUtils.validate_vital_signs`) -/

/-- The input record: every vital is optional, as the source only
evaluates keys present in the dict. -/
structure Vitals where
  systolic : Option ℚ
  diastolic : Option ℚ
  heart_rate : Option ℚ
  temperature : Option ℚ
  temp_unit : Option String
deriving DecidableEq

/-- Blood-pressure entry: the two readings and the status label. -/
structure BPEntry where
  systolic : ℚ
  diastolic : ℚ
  status : String
deriving DecidableEq

/-- Heart-rate entry. -/
structure HREntry where
  value : ℚ
  status : String
deriving DecidableEq

/-- Temperature entry: reading, unit and status label. -/
structure TempEntry where
  value : ℚ
  unit : String
  status : String
deriving DecidableEq

/-- The results dict of `validate_vital_signs`: one optional entry per
vital type. -/
structure VitalResults where
  blood_pressure : Option BPEntry
  heart_rate : Option HREntry
  temperature : Option TempEntry
deriving DecidableEq

/-- The blood-pressure threshold ladder of `validate_vital_signs`,
evaluated top-down. -/
def bpStatusStr (systolic diastolic : ℚ) : String :=
  if systolic < 90 ∨ diastolic < 60 then "Low (Hypotension)"
  else if systolic < 120 ∧ diastolic < 80 then "Normal"
  else if systolic < 130 ∧ diastolic < 80 then "Elevated"
  else if systolic < 140 ∨ diastolic < 90 then "High Blood Pressure Stage 1"
  else if systolic < 180 ∨ diastolic < 120 then "High Blood Pressure Stage 2"
  else "Hypertensive Crisis - Seek immediate care"

/-- The heart-rate ladder of `validate_vital_signs`. -/
def hrStatusStr (hr : ℚ) : String :=
  if hr < 60 then "Low (Bradycardia)"
  else if hr ≤ 100 then "Normal"
  else "High (Tachycardia)"

/-- The unit-aware temperature ladder of `validate_vital_signs`; any unit
other than `F`/`f` selects the Celsius branch, as in the source. -/
def tempStatusStr (temp : ℚ) (temp_unit : String) : String :=
  if upperStr temp_unit = "F" then
    if temp < 97 then "Low"
    else if temp ≤ 199/2 then "Normal"
    else if temp ≤ 1003/10 then "Low-grade fever"
    else if temp ≤ 102 then "Moderate fever"
    else "High fever - seek medical attention"
  else
    if temp < 361/10 then "Low"
    else if temp ≤ 75/2 then "Normal"
    else if temp ≤ 379/10 then "Low-grade fever"
    else if temp ≤ 389/10 then "Moderate fever"
    else "High fever - seek medical attention"

/-- `MedicalUtils.validate_vital_signs`: blood pressure is evaluated only
when both `systolic` and `diastolic` are present; `temp_unit` defaults to
`"F"` when absent. -/
def validate_vital_signs (vitals : Vitals) : VitalResults :=
  { blood_pressure :=
      match vitals.systolic, vitals.diastolic with
      | some s, some d => some ⟨s, d, bpStatusStr s d⟩
      | _, _ => none
    heart_rate := vitals.heart_rate.map fun hr => ⟨hr, hrStatusStr hr⟩
    temperature := vitals.temperature.map fun t =>
      let u := vitals.temp_unit.getD "F"
      ⟨t, u, tempStatusStr t u⟩ }

/-! ### Drug database (`DrugDatabase`) -/

/-- One record of the static `drugs` dict. -/
structure DrugInfo where
  generic_name : String
  brand_names : List String
  category : String
  common_uses : List String
  max_daily_dose : String
  warnings : List String
  side_effects : List String
deriving DecidableEq

/-- The `DrugDatabase.drugs` table, keyed by generic name, in insertion
order. -/
def drugs : List (String × DrugInfo) :=
  [("acetaminophen",
    { generic_name := "Acetaminophen"
      brand_names := ["Tylenol", "Panadol"]
      category := "Pain reliever/Fever reducer"
      common_uses := ["Pain relief", "Fever reduction"]
      max_daily_dose := "4000mg for adults"
      warnings := ["Do not exceed maximum dose", "Avoid alcohol",
        "Check other medications for acetaminophen content"]
      side_effects := ["Rare at normal doses", "Liver damage with overdose"] }),
   ("ibuprofen",
    { generic_name := "Ibuprofen"
      brand_names := ["Advil", "Motrin"]
      category := "NSAID (Non-steroidal anti-inflammatory drug)"
      common_uses := ["Pain relief", "Inflammation reduction", "Fever reduction"]
      max_daily_dose := "1200mg for adults (OTC), up to 3200mg (prescription)"
      warnings := ["Take with food", "Avoid if history of stomach ulcers",
        "May increase bleeding risk"]
      side_effects := ["Stomach upset", "Heartburn", "Dizziness", "Increased bleeding risk"] }),
   ("aspirin",
    { generic_name := "Aspirin"
      brand_names := ["Bayer", "Bufferin"]
      category := "NSAID/Antiplatelet"
      common_uses := ["Pain relief", "Heart attack prevention", "Stroke prevention"]
      max_daily_dose := "Varies by indication (81mg-4000mg)"
      warnings := ["Increased bleeding risk", "Not for children with viral infections",
        "Take with food"]
      side_effects := ["Stomach irritation", "Increased bleeding",
        "Ringing in ears (high doses)"] })]

/-- The appends one drug contributes to the `search_drugs` result list:
a generic-name hit appends and skips the other checks (`continue`); a
brand-name hit appends once (`break`) but execution then still reaches the
use-case loop, which can append the same drug a second time. -/
def searchHits (ql : String) (generic : String) (info : DrugInfo) :
    List (String × DrugInfo) :=
  if occursIn ql.data generic.data then [(generic, info)]
  else
    (if info.brand_names.any (fun b => occursIn ql.data (lowerStr b).data) then
      [(generic, info)] else []) ++
    (if info.common_uses.any (fun u => occursIn ql.data (lowerStr u).data) then
      [(generic, info)] else [])

/-- `DrugDatabase.search_drugs`. -/
def search_drugs (query : String) : List (String × DrugInfo) :=
  (drugs.map fun gi => searchHits (lowerStr query) gi.1 gi.2).flatten

/-! ### Cardiovascular risk (`HealthAssessment.assess_cardiovascular_risk`) -/

/-- `HealthAssessment.risk_factors["cardiovascular"]`. -/
def cardiovascular_risk_factors : List String :=
  ["smoking", "high_blood_pressure", "high_cholesterol",
   "diabetes", "family_history", "obesity", "sedentary_lifestyle"]

/-- The record returned by `assess_cardiovascular_risk`. -/
structure RiskProfile where
  risk_level : String
  risk_score : ℕ
  applicable_factors : List String
  recommendations : List String
deriving DecidableEq

/-- `HealthAssessment.assess_cardiovascular_risk`. -/
def assess_cardiovascular_risk (risk_factors : List String) (age : ℤ) : RiskProfile :=
  let applicable := risk_factors.filter fun f => cardiovascular_risk_factors.contains f
  let risk_score := applicable.length + (if 65 < age then 2 else if 45 < age then 1 else 0)
  if risk_score = 0 then
    { risk_level := "Low", risk_score := risk_score, applicable_factors := applicable
      recommendations := ["Maintain healthy lifestyle", "Regular check-ups"] }
  else if risk_score ≤ 2 then
    { risk_level := "Moderate", risk_score := risk_score, applicable_factors := applicable
      recommendations :=
        ["Focus on modifiable risk factors",
         "Regular blood pressure and cholesterol checks",
         "Consider lifestyle modifications"] }
  else
    { risk_level := "High", risk_score := risk_score, applicable_factors := applicable
      recommendations :=
        ["Consult with healthcare provider immediately",
         "Comprehensive cardiovascular evaluation needed",
         "Aggressive lifestyle modifications required"] }

/-! ### Helper lemmas -/

/-- Python's whitespace characters (the set stripped by `str.strip`). -/
def isPyWs (c : Char) : Bool :=
  c = ' ' || c = '\t' || c = '\n' || c = '\r' || c = Char.ofNat 11 || c = Char.ofNat 12

lemma asciiLower_ws {c : Char} (h : isPyWs c = true) : asciiLower c = c := by
  simp only [isPyWs, Bool.or_eq_true, decide_eq_true_eq] at h
  rcases h with ((((h | h) | h) | h) | h) | h <;> subst h <;> rfl

lemma mem_of_occursIn {c : Char} {n h : List Char} (hocc : occursIn (c :: n) h = true) :
    c ∈ h := by
  induction h with
  | nil => simp [occursIn, List.isEmpty] at hocc
  | cons d t ih =>
    rw [occursIn, Bool.or_eq_true] at hocc
    rcases hocc with hp | ho
    · have hd : c = d := by
        rw [List.isPrefixOf_cons₂, Bool.and_eq_true] at hp
        exact eq_of_beq hp.1
      subst hd
      exact List.mem_cons_self c t
    · exact List.mem_cons_of_mem d (ih ho)

lemma occursIn_ws_false {c : Char} {n m : List Char} (hc : isPyWs c = false)
    (hm : ∀ d ∈ m, isPyWs d = true) : occursIn (c :: n) m = false := by
  cases hocc : occursIn (c :: n) m with
  | false => rfl
  | true => rw [hm c (mem_of_occursIn hocc)] at hc; cases hc

/-- A keyword is nonempty and starts with a non-whitespace character. -/
def headNotWs (s : String) : Bool :=
  match s.data with
  | [] => false
  | c :: _ => !isPyWs c

lemma kwAny_ws_false {L : List String} (hL : L.all headNotWs = true)
    {m : List Char} (hm : ∀ d ∈ m, isPyWs d = true) :
    L.any (fun kw => occursIn kw.data m) = false := by
  rw [List.any_eq_false]
  intro kw hkw
  have h1 := List.all_eq_true.mp hL kw hkw
  cases hd : kw.data with
  | nil => rw [headNotWs, hd] at h1; cases h1
  | cons c t =>
    have hc : isPyWs c = false := by
      rw [headNotWs, hd, Bool.not_eq_true'] at h1
      exact h1
    simp [occursIn_ws_false hc hm]

lemma searchFrom_lit_mem {c : Char} {l : List Char} {p : List Char → Bool} :
    ∀ {m : List Char}, searchFrom (tokThen (Tok.lit (c :: l)) p) m = true → c ∈ m := by
  intro m
  induction m with
  | nil =>
    intro hs
    rw [searchFrom, tokThen] at hs
    simp [consumeTok, List.isPrefixOf] at hs
  | cons d t ih =>
    intro hs
    rw [searchFrom, Bool.or_eq_true] at hs
    rcases hs with h1 | h2
    · rw [tokThen] at h1
      cases hpre : (c :: l).isPrefixOf (d :: t) with
      | false => rw [consumeTok, hpre] at h1; simp at h1
      | true =>
        have hd : c = d := by
          rw [List.isPrefixOf_cons₂, Bool.and_eq_true] at hpre
          exact eq_of_beq hpre.1
        subst hd
        exact List.mem_cons_self c t
    · exact List.mem_cons_of_mem d (ih h2)

lemma searchFrom_litTok_mem {s : String} {c : Char} {l : List Char} (hdata : s.data = c :: l)
    {p : List Char → Bool} {m : List Char}
    (hs : searchFrom (tokThen (litTok s) p) m = true) : c ∈ m := by
  rw [litTok, hdata] at hs
  exact searchFrom_lit_mem hs

lemma concerning_ws_false {s : String} (hm : ∀ d ∈ s.data, isPyWs d = true) :
    check_concerning_patterns s = false := by
  have key : ∀ (c : Char) (l : List Char) (p : List Char → Bool) (t : String),
      t.data = c :: l → isPyWs c = false →
      searchFrom (tokThen (litTok t) p) s.data = false := by
    intro c l p t ht hc
    cases hres : searchFrom (tokThen (litTok t) p) s.data with
    | false => rfl
    | true => rw [hm c (searchFrom_litTok_mem ht hres)] at hc; cases hc
  rw [check_concerning_patterns, pat_pain, pat_bleeding, pat_fever, pat_sleep, pat_weight]
  rw [key 'p' _ _ "pain" rfl rfl, key 'b' _ _ "bleeding" rfl rfl,
    key 'f' _ _ "fever" rfl rfl, key 'c' _ _ cantStr rfl rfl, key 'l' _ _ "lost" rfl rfl]
  rfl

lemma lowerStr_ws {s : String} (hm : ∀ d ∈ s.data, isPyWs d = true) :
    ∀ d ∈ (lowerStr s).data, isPyWs d = true := by
  intro d hd
  rw [lowerStr] at hd
  rcases List.mem_map.mp hd with ⟨e, he, rfl⟩
  rw [asciiLower_ws (hm e he)]
  exact hm e he

lemma listLtChar_asymm : ∀ {xs ys : List Char},
    listLtChar xs ys = true → listLtChar ys xs = false := by
  intro xs
  induction xs with
  | nil =>
    intro ys h
    cases ys with
    | nil => cases h
    | cons b bs => rfl
  | cons a as ih =>
    intro ys h
    cases ys with
    | nil => cases h
    | cons b bs =>
      rw [listLtChar] at h ⊢
      by_cases hab : a < b
      · rw [if_neg (fun hba => absurd hab (lt_asymm hba)), if_pos hab]
      · rw [if_neg hab] at h
        by_cases hba : b < a
        · rw [if_pos hba] at h; cases h
        · rw [if_neg hba] at h
          rw [if_neg hba, if_neg hab]
          exact ih h

lemma sortPair_not_lt (a b : String) :
    listLtChar (sortPair a b).2.data (sortPair a b).1.data = false := by
  rw [sortPair]
  by_cases hlt : listLtChar b.data a.data = true
  · rw [if_pos hlt]
    exact listLtChar_asymm hlt
  · rw [if_neg hlt]
    simpa using hlt

lemma lookup_pair_none {p : String × String}
    (h : listLtChar p.2.data p.1.data = false) : lookupInteraction p = none := by
  have k : ∀ kv ∈ known_interactions, (kv.1 == p) = false := by
    intro kv hkv
    rw [beq_eq_false_iff_ne]
    intro hkey
    rw [known_interactions] at hkv
    have hrev : listLtChar kv.1.2.data kv.1.1.data = true := by
      simp only [List.mem_cons, List.not_mem_nil, or_false] at hkv
      rcases hkv with h1 | h1 | h1 | h1 <;> subst h1 <;> decide
    rw [hkey] at hrev
    rw [hrev] at h
    cases h
  rw [lookupInteraction, List.find?_eq_none.mpr (fun x hx => by rw [k x hx]; exact Bool.false_ne_true)]
  rfl

lemma interactions_always_empty (meds : List String) :
    (medication_interaction_check meds).interactions = [] := by
  simp only [medication_interaction_check]
  rw [List.filterMap_eq_nil_iff]
  intro p _
  rw [lookup_pair_none (sortPair_not_lt p.1 p.2)]
  rfl

lemma cardio_score_eq (fs : List String) (age : ℤ) :
    (assess_cardiovascular_risk fs age).risk_score =
      (fs.filter fun f => cardiovascular_risk_factors.contains f).length +
        (if 65 < age then 2 else if 45 < age then 1 else 0) := by
  simp only [assess_cardiovascular_risk]
  split_ifs <;> rfl

lemma cardio_level_eq (fs : List String) (age : ℤ) :
    (assess_cardiovascular_risk fs age).risk_level =
      (if (fs.filter fun f => cardiovascular_risk_factors.contains f).length +
          (if 65 < age then 2 else if 45 < age then 1 else 0) = 0 then "Low"
       else if (fs.filter fun f => cardiovascular_risk_factors.contains f).length +
          (if 65 < age then 2 else if 45 < age then 1 else 0) ≤ 2 then "Moderate"
       else "High") := by
  simp only [assess_cardiovascular_risk]
  split_ifs <;> rfl

/-! ### Claim theorems -/

/-- C1: the claim says that for every message containing an Emergency
Keyword, `assess_urgency` returns `EMERGENCY` AND `is_emergency` returns
true, the two entry points agreeing on every message.  The code keeps two
divergent keyword lists: the message `"severe burn"` contains the
emergency keyword `"severe burn"` of the classifier's list, so
`assess_urgency` returns `EMERGENCY`, yet `is_emergency` (whose 13-entry
list lacks it) returns `false` — the gate and the classifier disagree. -/
theorem assess_and_gate_diverge_on_severe_burn :
    assess_urgency "severe burn" =
      ("EMERGENCY", "This appears to be a medical emergency. Seek immediate medical attention.") ∧
    is_emergency "severe burn" = false := by
  exact ⟨by decide, by decide⟩

/-- C3: the claim says `medication_interaction_check` on
`["Warfarin", "aspirin"]` (in either order) yields one finding
`"Increased bleeding risk"`.  In the code the lookup key is the SORTED
lower-cased pair, e.g. `("aspirin", "warfarin")`, while every key of the
static `known_interactions` table is written with its larger name first,
e.g. `("warfarin", "aspirin")`; no sorted pair can ever match a key, so the
checker reports no interaction for any input whatsoever. -/
theorem medication_interaction_check_never_reports :
    (∀ meds : List String, (medication_interaction_check meds).interactions = []) ∧
    medication_interaction_check ["Warfarin", "aspirin"] =
      ⟨false, [], "This is a basic check. Always consult your pharmacist or doctor for comprehensive interaction screening."⟩ ∧
    medication_interaction_check ["aspirin", "Warfarin"] =
      ⟨false, [], "This is a basic check. Always consult your pharmacist or doctor for comprehensive interaction screening."⟩ := by
  exact ⟨interactions_always_empty, by decide, by decide⟩

/-- C4 counterexample: the claim says a missing required field (systolic
present without diastolic) signals an input-validation error.  The code
instead guards with `if "systolic" in vitals and "diastolic" in vitals`,
so on `{systolic: 115}` it succeeds, returning a result with no
blood-pressure entry and no error of any kind. -/
theorem validate_vitals_partial_bp_silently_skipped :
    validate_vital_signs ⟨some 115, none, none, none, none⟩ = ⟨none, none, none⟩ := by
  decide

/-- C4 amended: whenever a field required for a vital is missing, the
interpreter silently skips that vital — the result simply has no entry for
it, and no error is signalled. -/
theorem validate_vitals_missing_field_skips :
    ∀ v : Vitals,
      (v.systolic = none ∨ v.diastolic = none →
        (validate_vital_signs v).blood_pressure = none) ∧
      (v.heart_rate = none → (validate_vital_signs v).heart_rate = none) ∧
      (v.temperature = none → (validate_vital_signs v).temperature = none) := by
  intro v
  refine ⟨fun h => ?_, fun h => ?_, fun h => ?_⟩
  · rcases h with h | h <;> cases hs : v.systolic <;> cases hd : v.diastolic <;>
      simp_all [validate_vital_signs]
  · simp [validate_vital_signs, h]
  · simp [validate_vital_signs, h]

/-- C4 witness: the amended theorem applied to the systolic-only input. -/
theorem validate_vitals_missing_field_skips_witness :
    (validate_vital_signs ⟨some 115, none, none, none, none⟩).blood_pressure = none :=
  (validate_vitals_missing_field_skips ⟨some 115, none, none, none, none⟩).1 (Or.inr rfl)

/-- C5: the claim says `search_drugs` returns at most one record per
generic name.  The code appends once on a brand-name hit (`break` leaves
only the brand loop) and then appends AGAIN on a use-case hit.  For the
query `"l"`, acetaminophen matches both the brand `"Tylenol"` and the use
`"Pain relief"`, and ibuprofen both `"Advil"` and `"Pain relief"`, so both
appear twice in the result. -/
theorem search_drugs_duplicates_generics :
    (search_drugs "l").map Prod.fst =
      ["acetaminophen", "acetaminophen", "ibuprofen", "ibuprofen", "aspirin"] := by
  decide

/-- C10: for every medication list, the `has_interactions` flag is true
exactly when the `interactions` list is nonempty; a list with fewer than
two entries yields no pairs, hence no interactions and a false flag; and
the disclaimer is one fixed string. -/
theorem interaction_report_shape :
    ∀ meds : List String,
      ((medication_interaction_check meds).has_interactions = true ↔
        (medication_interaction_check meds).interactions ≠ []) ∧
      (meds.length < 2 →
        (medication_interaction_check meds).has_interactions = false ∧
        (medication_interaction_check meds).interactions = []) ∧
      (medication_interaction_check meds).disclaimer =
        "This is a basic check. Always consult your pharmacist or doctor for comprehensive interaction screening." := by
  intro meds
  refine ⟨?_, fun hlen => ?_, rfl⟩
  · simp only [medication_interaction_check, decide_eq_true_eq]
    rw [List.length_pos]
  · match meds, hlen with
    | [], _ => exact ⟨by decide, by decide⟩
    | [x], _ =>
      constructor <;> simp [medication_interaction_check, allPairs]
    | x :: y :: t, hlen => simp at hlen; omega

/-- C10 witness: the theorem applied to the one-element list. -/
theorem interaction_report_shape_witness :
    (medication_interaction_check ["warfarin"]).has_interactions = false ∧
    (medication_interaction_check ["warfarin"]).interactions = [] :=
  (interaction_report_shape ["warfarin"]).2.1 (by decide)

/-- C6: the blood-pressure interpreter assigns exactly one status by the
top-down ladder with first match winning — Low if systolic<90 or
diastolic<60; Normal if systolic<120 and diastolic<80; Elevated if
systolic<130 and diastolic<80; Stage 1 if systolic<140 or diastolic<90;
Stage 2 if systolic<180 or diastolic<120; otherwise Hypertensive Crisis —
and in particular 115/75 is Normal and 185/125 is Hypertensive Crisis. -/
theorem blood_pressure_ladder_spec :
    (∀ s d : ℚ,
      ((s < 90 ∨ d < 60) → bpStatusStr s d = "Low (Hypotension)") ∧
      (¬(s < 90 ∨ d < 60) → s < 120 ∧ d < 80 → bpStatusStr s d = "Normal") ∧
      (¬(s < 90 ∨ d < 60) → ¬(s < 120 ∧ d < 80) → s < 130 ∧ d < 80 →
        bpStatusStr s d = "Elevated") ∧
      (¬(s < 90 ∨ d < 60) → ¬(s < 120 ∧ d < 80) → ¬(s < 130 ∧ d < 80) →
        s < 140 ∨ d < 90 → bpStatusStr s d = "High Blood Pressure Stage 1") ∧
      (¬(s < 90 ∨ d < 60) → ¬(s < 120 ∧ d < 80) → ¬(s < 130 ∧ d < 80) →
        ¬(s < 140 ∨ d < 90) → s < 180 ∨ d < 120 →
        bpStatusStr s d = "High Blood Pressure Stage 2") ∧
      (¬(s < 90 ∨ d < 60) → ¬(s < 120 ∧ d < 80) → ¬(s < 130 ∧ d < 80) →
        ¬(s < 140 ∨ d < 90) → ¬(s < 180 ∨ d < 120) →
        bpStatusStr s d = "Hypertensive Crisis - Seek immediate care")) ∧
    (validate_vital_signs ⟨some 115, some 75, none, none, none⟩).blood_pressure =
      some ⟨115, 75, "Normal"⟩ ∧
    (validate_vital_signs ⟨some 185, some 125, none, none, none⟩).blood_pressure =
      some ⟨185, 125, "Hypertensive Crisis - Seek immediate care"⟩ := by
  refine ⟨fun s d => ⟨fun h1 => ?_, fun h1 h2 => ?_, fun h1 h2 h3 => ?_,
    fun h1 h2 h3 h4 => ?_, fun h1 h2 h3 h4 h5 => ?_, fun h1 h2 h3 h4 h5 => ?_⟩,
    by decide, by decide⟩
  · rw [bpStatusStr, if_pos h1]
  · rw [bpStatusStr, if_neg h1, if_pos h2]
  · rw [bpStatusStr, if_neg h1, if_neg h2, if_pos h3]
  · rw [bpStatusStr, if_neg h1, if_neg h2, if_neg h3, if_pos h4]
  · rw [bpStatusStr, if_neg h1, if_neg h2, if_neg h3, if_neg h4, if_pos h5]
  · rw [bpStatusStr, if_neg h1, if_neg h2, if_neg h3, if_neg h4, if_neg h5]

/-- C6 witness: the ladder characterization applied at 115/75. -/
theorem blood_pressure_ladder_spec_witness : bpStatusStr 115 75 = "Normal" :=
  (blood_pressure_ladder_spec.1 115 75).2.1 (by norm_num) (by norm_num)

/-- C9: a message that matches no emergency keyword, no urgent keyword and
no concerning pattern — in particular the empty string and every
whitespace-only string — is classified `LOW` with the general-inquiry
rationale; `assess_urgency` is a total function, so no error is possible. -/
theorem assess_urgency_default_low :
    ∀ msg : String,
      ((emergency_keywords.any (fun kw => occursIn kw.data (lowerStr msg).data) = false ∧
        urgent_keywords.any (fun kw => occursIn kw.data (lowerStr msg).data) = false ∧
        check_concerning_patterns (lowerStr msg) = false) ∨
        msg.data.all isPyWs = true) →
      assess_urgency msg = ("LOW", "This appears to be a general health inquiry.") := by
  intro msg h
  rcases h with ⟨h1, h2, h3⟩ | hws
  · simp [assess_urgency, h1, h2, h3]
  · have hlow := lowerStr_ws (fun d hd => List.all_eq_true.mp hws d hd)
    have h1 := kwAny_ws_false (L := emergency_keywords) (by decide) hlow
    have h2 := kwAny_ws_false (L := urgent_keywords) (by decide) hlow
    have h3 := concerning_ws_false hlow
    simp [assess_urgency, h1, h2, h3]

/-- C9 witness: the theorem applied to a whitespace-only message. -/
theorem assess_urgency_default_low_witness :
    assess_urgency "  " = ("LOW", "This appears to be a general health inquiry.") :=
  assess_urgency_default_low "  " (Or.inr (by decide))

/-- C7: the temperature interpreter classifies by the unit-specific
five-band ladder with an inclusive upper bound on the Normal band —
Fahrenheit: <97 Low, ≤99.5 Normal, ≤100.3 Low-grade, ≤102 Moderate,
>102 High; Celsius: <36.1 Low, ≤37.5 Normal, ≤37.9 Low-grade,
≤38.9 Moderate, >38.9 High — so exactly 99.5 °F is Normal and 99.6 °F is
Low-grade fever (also through `validate_vital_signs`, where the unit
defaults to Fahrenheit). -/
theorem temperature_ladder_spec :
    (∀ t : ℚ,
      (t < 97 → tempStatusStr t "F" = "Low") ∧
      (¬ t < 97 → t ≤ 99.5 → tempStatusStr t "F" = "Normal") ∧
      (¬ t ≤ 99.5 → t ≤ 100.3 → tempStatusStr t "F" = "Low-grade fever") ∧
      (¬ t ≤ 100.3 → t ≤ 102 → tempStatusStr t "F" = "Moderate fever") ∧
      (¬ t ≤ 102 → tempStatusStr t "F" = "High fever - seek medical attention")) ∧
    (∀ t : ℚ,
      (t < 36.1 → tempStatusStr t "C" = "Low") ∧
      (¬ t < 36.1 → t ≤ 37.5 → tempStatusStr t "C" = "Normal") ∧
      (¬ t ≤ 37.5 → t ≤ 37.9 → tempStatusStr t "C" = "Low-grade fever") ∧
      (¬ t ≤ 37.9 → t ≤ 38.9 → tempStatusStr t "C" = "Moderate fever") ∧
      (¬ t ≤ 38.9 → tempStatusStr t "C" = "High fever - seek medical attention")) ∧
    tempStatusStr 99.5 "F" = "Normal" ∧
    tempStatusStr 99.6 "F" = "Low-grade fever" ∧
    (validate_vital_signs ⟨none, none, none, some 99.5, none⟩).temperature =
      some ⟨99.5, "F", "Normal"⟩ := by
  have hF : upperStr "F" = "F" := rfl
  have hC : ¬ upperStr "C" = "F" := by decide
  have hnorm : ∀ t : ℚ, ¬ t < 97 → t ≤ 199/2 → tempStatusStr t "F" = "Normal" := by
    intro t h1 h2
    rw [tempStatusStr, if_pos hF, if_neg h1, if_pos h2]
  refine ⟨fun t => ⟨fun h1 => ?_, fun h1 h2 => ?_, fun h1 h2 => ?_, fun h1 h2 => ?_,
      fun h1 => ?_⟩,
    fun t => ⟨fun h1 => ?_, fun h1 h2 => ?_, fun h1 h2 => ?_, fun h1 h2 => ?_,
      fun h1 => ?_⟩, ?_, ?_, ?_⟩
  · rw [tempStatusStr, if_pos hF, if_pos h1]
  · exact hnorm t h1 (by linarith)
  · rw [tempStatusStr, if_pos hF, if_neg (show ¬ t < 97 by intro hc; exact h1 (by linarith)),
      if_neg (show ¬ t ≤ 199/2 by intro hc; exact h1 (by linarith)), if_pos (by linarith)]
  · rw [tempStatusStr, if_pos hF, if_neg (show ¬ t < 97 by intro hc; exact h1 (by linarith)),
      if_neg (show ¬ t ≤ 199/2 by intro hc; exact h1 (by linarith)),
      if_neg (show ¬ t ≤ 1003/10 by intro hc; exact h1 (by linarith)), if_pos (by linarith)]
  · rw [tempStatusStr, if_pos hF, if_neg (show ¬ t < 97 by intro hc; exact h1 (by linarith)),
      if_neg (show ¬ t ≤ 199/2 by intro hc; exact h1 (by linarith)),
      if_neg (show ¬ t ≤ 1003/10 by intro hc; exact h1 (by linarith)),
      if_neg (show ¬ t ≤ 102 by intro hc; exact h1 (by linarith))]
  · rw [tempStatusStr, if_neg hC, if_pos (by linarith)]
  · rw [tempStatusStr, if_neg hC, if_neg (show ¬ t < 361/10 by intro hc; exact h1 (by linarith)),
      if_pos (by linarith)]
  · rw [tempStatusStr, if_neg hC, if_neg (show ¬ t < 361/10 by intro hc; exact h1 (by linarith)),
      if_neg (show ¬ t ≤ 75/2 by intro hc; exact h1 (by linarith)), if_pos (by linarith)]
  · rw [tempStatusStr, if_neg hC, if_neg (show ¬ t < 361/10 by intro hc; exact h1 (by linarith)),
      if_neg (show ¬ t ≤ 75/2 by intro hc; exact h1 (by linarith)),
      if_neg (show ¬ t ≤ 379/10 by intro hc; exact h1 (by linarith)), if_pos (by linarith)]
  · rw [tempStatusStr, if_neg hC, if_neg (show ¬ t < 361/10 by intro hc; exact h1 (by linarith)),
      if_neg (show ¬ t ≤ 75/2 by intro hc; exact h1 (by linarith)),
      if_neg (show ¬ t ≤ 379/10 by intro hc; exact h1 (by linarith)),
      if_neg (show ¬ t ≤ 389/10 by intro hc; exact h1 (by linarith))]
  · exact hnorm (99.5 : ℚ) (by norm_num) (by norm_num)
  · rw [tempStatusStr, if_pos hF, if_neg (by norm_num), if_neg (by norm_num),
      if_pos (by norm_num)]
  · have hts : tempStatusStr 99.5 "F" = "Normal" := hnorm (99.5 : ℚ) (by norm_num) (by norm_num)
    simp [validate_vital_signs, hts]

/-- C7 witness: the Fahrenheit Normal band applied at 98 °F. -/
theorem temperature_ladder_spec_witness : tempStatusStr 98 "F" = "Normal" :=
  (temperature_ladder_spec.1 98).2.1 (by norm_num) (by norm_num)

/-- C8: `assess_cardiovascular_risk` scores the count of supplied tags
that lie in the fixed cardiovascular risk-factor set, plus 2 when
age > 65, plus 1 when 45 < age ≤ 65, else plus 0; the level is Low at
score 0, Moderate at 1–2, High at ≥ 3; and `["smoking","obesity"]` with
age 70 scores 4, level High. -/
theorem cardiovascular_risk_spec :
    (∀ (fs : List String) (age : ℤ),
      (assess_cardiovascular_risk fs age).risk_score =
        fs.countP (fun f => cardiovascular_risk_factors.contains f) +
          (if 65 < age then 2 else if 45 < age ∧ age ≤ 65 then 1 else 0) ∧
      ((assess_cardiovascular_risk fs age).risk_score = 0 →
        (assess_cardiovascular_risk fs age).risk_level = "Low") ∧
      (1 ≤ (assess_cardiovascular_risk fs age).risk_score ∧
          (assess_cardiovascular_risk fs age).risk_score ≤ 2 →
        (assess_cardiovascular_risk fs age).risk_level = "Moderate") ∧
      (3 ≤ (assess_cardiovascular_risk fs age).risk_score →
        (assess_cardiovascular_risk fs age).risk_level = "High")) ∧
    (assess_cardiovascular_risk ["smoking", "obesity"] 70).risk_score = 4 ∧
    (assess_cardiovascular_risk ["smoking", "obesity"] 70).risk_level = "High" := by
  refine ⟨fun fs age => ⟨?_, fun h0 => ?_, fun hm => ?_, fun hh => ?_⟩, by decide, by decide⟩
  · rw [cardio_score_eq, List.countP_eq_length_filter]
    split_ifs <;> omega
  · rw [cardio_score_eq] at h0
    rw [cardio_level_eq, if_pos h0]
  · rw [cardio_score_eq] at hm
    rw [cardio_level_eq, if_neg (by omega), if_pos (by omega)]
  · rw [cardio_score_eq] at hh
    rw [cardio_level_eq, if_neg (by omega), if_neg (by omega)]

/-- C8 witness: the Low tier applied to no factors at age 0. -/
theorem cardiovascular_risk_spec_witness :
    (assess_cardiovascular_risk [] 0).risk_level = "Low" :=
  (cardiovascular_risk_spec.1 [] 0).2.1 (by decide)

/-- C2 counterexample: the claim says `calculate_bmi` fails with a
validation error whenever `height_m ≤ 0`.  The code only divides, so a
negative height raises nothing: at height −1.75 m and weight 70 kg it
happily returns BMI 22.9, category Normal weight. -/
theorem calculate_bmi_negative_height_no_error :
    calculate_bmi 70 (-(7/4)) =
      Except.ok ⟨229/10, "Normal weight", "Maintain your current healthy lifestyle."⟩ := by
  have hdiv : (70:ℚ) / (-(7/4)) ^ 2 = 1120/49 := by norm_num
  have hr : round1 (1120/49 : ℚ) = 229/10 := by
    rw [round1, roundHalfEven]
    norm_num
  simp only [calculate_bmi, hdiv]
  rw [if_neg (by norm_num), if_neg (by norm_num), if_pos (by norm_num), hr]

/-- C2 amended: `calculate_bmi` fails (ZeroDivisionError) exactly when
`height_m = 0`; for every other height — negative heights included — it
returns `weight_kg / height_m²` rounded to one decimal, with the bands
(evaluated on the unrounded value) <18.5 Underweight, [18.5, 25) Normal,
[25, 30) Overweight, ≥30 Obese, each with its fixed advice string. -/
theorem calculate_bmi_spec :
    ∀ w h : ℚ,
      (h = 0 → calculate_bmi w h = Except.error "ZeroDivisionError: float division by zero") ∧
      (h ≠ 0 → w / h ^ 2 < 18.5 → calculate_bmi w h =
        Except.ok ⟨round1 (w / h ^ 2), "Underweight",
          "Consider consulting with a healthcare provider about healthy weight gain."⟩) ∧
      (h ≠ 0 → 18.5 ≤ w / h ^ 2 → w / h ^ 2 < 25 → calculate_bmi w h =
        Except.ok ⟨round1 (w / h ^ 2), "Normal weight",
          "Maintain your current healthy lifestyle."⟩) ∧
      (h ≠ 0 → 25 ≤ w / h ^ 2 → w / h ^ 2 < 30 → calculate_bmi w h =
        Except.ok ⟨round1 (w / h ^ 2), "Overweight",
          "Consider lifestyle changes including diet and exercise. Consult a healthcare provider."⟩) ∧
      (h ≠ 0 → 30 ≤ w / h ^ 2 → calculate_bmi w h =
        Except.ok ⟨round1 (w / h ^ 2), "Obese",
          "Strongly recommend consulting with a healthcare provider for a comprehensive health plan."⟩) := by
  intro w h
  refine ⟨fun h0 => ?_, fun hne hb => ?_, fun hne hb1 hb2 => ?_,
    fun hne hb1 hb2 => ?_, fun hne hb => ?_⟩
  · simp [calculate_bmi, h0]
  · have hsq : ¬ h ^ 2 = 0 := pow_ne_zero 2 hne
    simp only [calculate_bmi, if_neg hsq]
    rw [if_pos (by linarith)]
  · have hsq : ¬ h ^ 2 = 0 := pow_ne_zero 2 hne
    simp only [calculate_bmi, if_neg hsq]
    rw [if_neg (by intro hc; linarith), if_pos ⟨by linarith, by linarith⟩]
  · have hsq : ¬ h ^ 2 = 0 := pow_ne_zero 2 hne
    simp only [calculate_bmi, if_neg hsq]
    rw [if_neg (by intro hc; linarith),
      if_neg (by intro hc; obtain ⟨hc1, hc2⟩ := hc; linarith),
      if_pos ⟨by linarith, by linarith⟩]
  · have hsq : ¬ h ^ 2 = 0 := pow_ne_zero 2 hne
    simp only [calculate_bmi, if_neg hsq]
    rw [if_neg (by intro hc; linarith),
      if_neg (by intro hc; obtain ⟨hc1, hc2⟩ := hc; linarith),
      if_neg (by intro hc; obtain ⟨hc1, hc2⟩ := hc; linarith)]

/-- C2 witness: the Normal band applied at 70 kg and 1.75 m
(the spec's own example, BMI ≈ 22.9). -/
theorem calculate_bmi_spec_witness :
    calculate_bmi 70 (7/4) =
      Except.ok ⟨round1 (70 / (7/4) ^ 2), "Normal weight",
        "Maintain your current healthy lifestyle."⟩ :=
  (calculate_bmi_spec 70 (7/4)).2.2.1 (by norm_num) (by norm_num) (by norm_num)

end MedBot
